import Mathlib

/-!
# Verification of the graspy-ai content-generation pipeline

Shallow embedding of the server-side content pipeline of the repository
(`apps/server/app/workflows/lesson.py`, `apps/server/app/workflows/curriculum.py`,
`apps/server/app/api/routes.py`) together with proofs of the specification's
claims about it.

Python strings are modelled as Lean `String`; the model capability
(`StrandsRuntime.structured_output` / `.invoke`) is modelled as an oracle
argument returning `Except PyError α`, where `PyError.valueError` stands for a
Python `ValueError` (the only exception class the stage generators inspect) and
`PyError.otherError` stands for every other exception class.
-/

namespace Graspy

/-- Python exceptions, as far as the pipeline distinguishes them:
`valueError msg` is `ValueError(msg)` (raised by the runtime for validation and
budget failures and by the sanitizers); `otherError` is any other exception. -/
inductive PyError where
  | valueError (msg : String)
  | otherError (msg : String)
  deriving DecidableEq, Repr

/-! ## Text normalization (`lesson.py._normalize_text`, `str.strip`, `str.lower`) -/

/-- ASCII fragment of Python's `str.strip()` whitespace set
(space, tab, newline, carriage return, vertical tab, form feed). -/
def pyWhitespace (c : Char) : Bool :=
  c = ' ' || c = '\t' || c = '\n' || c = '\r' || c = Char.ofNat 11 || c = Char.ofNat 12

/-- Python `str.strip()`: drop leading and trailing whitespace. -/
def pyStrip (s : String) : String :=
  ⟨(s.data.dropWhile pyWhitespace).rdropWhile pyWhitespace⟩

/-- Python `str.lower()` on the ASCII fragment: map `A`-`Z` (codepoints 65-90)
to `a`-`z` and leave every other character unchanged. -/
def pyLower (c : Char) : Char :=
  if 65 ≤ c.toNat ∧ c.toNat ≤ 90 then Char.ofNat (c.toNat + 32) else c

/-- Lowercase a whole string, Python `str.lower()`. -/
def strLower (s : String) : String := ⟨s.data.map pyLower⟩

/-- The control-character translation table `_CONTROL_CHAR_LATEX_ESCAPES`:
tab, backspace, form feed and carriage return become their literal
two-character escape spelling. -/
def translateControl (c : Char) : List Char :=
  if c = '\t' then ['\\', 't']
  else if c = Char.ofNat 8 then ['\\', 'b']
  else if c = Char.ofNat 12 then ['\\', 'f']
  else if c = '\r' then ['\\', 'r']
  else [c]

/-- `lesson.py._normalize_text`: empty input yields `""`; otherwise strip the
outer whitespace and run the control-character translation. -/
def normalizeText (s : String) : String :=
  if s = "" then "" else ⟨((pyStrip s).data.flatMap translateControl)⟩

/-! ## Slug derivation (`curriculum.py._slugify`) -/

/-- Lowercase ASCII letter or digit. -/
def isAsciiLowerAlnum (c : Char) : Bool :=
  (97 ≤ c.toNat && c.toNat ≤ 122) || (48 ≤ c.toNat && c.toNat ≤ 57)

/-- ASCII letter or digit — the character class `[a-zA-Z0-9]` of `_slugify`'s
regular expression. -/
def isAsciiAlnum (c : Char) : Bool :=
  isAsciiLowerAlnum c || (65 ≤ c.toNat && c.toNat ≤ 90)

/-- `re.sub(r"[^a-zA-Z0-9]+", "-", ·)` as a left-to-right scan: a maximal run
of non-alphanumeric characters becomes one `'-'`. The boolean state records
whether we are inside such a run (its dash already emitted). -/
def collapseAux (inRun : Bool) : List Char → List Char
  | [] => []
  | c :: rest =>
    if isAsciiAlnum c then c :: collapseAux false rest
    else if inRun then collapseAux true rest
    else '-' :: collapseAux true rest

/-- Collapse non-alphanumeric runs, starting outside a run. -/
def collapseNonAlnum (l : List Char) : List Char := collapseAux false l

def isDash (c : Char) : Bool := c = '-'

/-- Python `str.strip("-")`. -/
def trimDashes (l : List Char) : List Char :=
  (l.dropWhile isDash).rdropWhile isDash

/-- Character-level body of `_slugify`: lowercase, collapse non-alphanumeric
runs to single dashes, trim dashes at both ends. -/
def slugChars (l : List Char) : List Char :=
  trimDashes (collapseNonAlnum (l.map pyLower))

/-- `curriculum.py._slugify`: empty result falls back to `"subject"`. -/
def slugify (s : String) : String :=
  let r := slugChars s.data
  if r.isEmpty then "subject" else ⟨r⟩

/-! ## Lesson data model (`schemas.py`) -/

/-- `LessonSlide.slide_type`, the `Literal` in `schemas.py`. -/
inductive SlideType where
  | conceptIntroduction
  | workedExample
  | scaffoldedProblem
  | misconception
  | synthesis
  deriving DecidableEq, Repr

/-- A slide assessment as it reaches `_sanitize_slide_payload`: the
`answer_index` entry of the dumped dict is modelled as `Option Int`, `none`
standing for a non-integer value (the `isinstance(assessment_index, int)`
check in the source; the pydantic layer makes `none` unreachable in practice,
but the sanitizer handles it). -/
structure RawAssessment where
  prompt : String
  options : List String
  answerIndex : Option Int
  correctFeedback : String
  incorrectFeedback : String
  deriving DecidableEq, Repr

/-- A raw slide; `assessment` is an `Option` to embed the source's
`if not assessment: raise` guard. -/
structure RawSlide where
  slideType : SlideType
  title : String
  bodyMd : String
  assessment : Option RawAssessment
  deriving DecidableEq, Repr

/-- `LessonSlidesPayload` as produced by the model, before sanitization. -/
structure RawSlidesPayload where
  overview : String
  learningObjectives : List String
  slides : List RawSlide
  deriving DecidableEq, Repr

/-- A sanitized assessment (output of `_sanitize_slide_payload`): the answer
index is a definite integer. The constant `type: "choice"` tag is omitted. -/
structure Assessment where
  prompt : String
  options : List String
  answerIndex : Int
  correctFeedback : String
  incorrectFeedback : String
  deriving DecidableEq, Repr

/-- A sanitized slide. -/
structure Slide where
  slideType : SlideType
  title : String
  bodyMd : String
  assessment : Assessment
  deriving DecidableEq, Repr

/-- A sanitized `LessonSlidesPayload`. -/
structure SlidesPayload where
  overview : String
  learningObjectives : List String
  slides : List Slide
  deriving DecidableEq, Repr

/-- `LessonPracticePayload` (`schemas.py`): the same shape is used for the raw
model output and for the sanitized value. -/
structure PracticePayload where
  question : String
  options : List String
  correctOptionIndex : Int
  correctFeedback : String
  incorrectFeedback : String
  deriving DecidableEq, Repr

/-! ## Content validator (`lesson.py._sanitize_slide_payload`,
`_sanitize_practice_payload`) -/

/-- The Python `for` loop over a list that appends one transformed item per
element and aborts at the first raised exception. -/
def mapExcept (f : α → Except ε β) : List α → Except ε (List β)
  | [] => .ok []
  | x :: xs =>
    match f x with
    | .error e => .error e
    | .ok y =>
      match mapExcept f xs with
      | .error e => .error e
      | .ok ys => .ok (y :: ys)

/-- The filter-then-normalize list comprehension
`[_normalize_text(o) for o in options if o.strip()]`. -/
def survivingOptions (options : List String) : List String :=
  (options.filter (fun o => pyStrip o != "")).map normalizeText

/-- The body of the per-slide loop of `_sanitize_slide_payload`: normalize
title and body, require an assessment, require exactly three surviving options,
clamp an integer answer index into `[0, len(options)-1]` and default a
non-integer one to 0. -/
def sanitizeSlide (raw : RawSlide) : Except String Slide :=
  let title := normalizeText raw.title
  let body := normalizeText raw.bodyMd
  match raw.assessment with
  | none => .error "Slide generation returned a slide without an assessment"
  | some a =>
    let options := survivingOptions a.options
    if options.length ≠ 3 then
      .error "Slide assessment must include exactly three options"
    else
      let maxIndex : Int := (options.length : Int) - 1
      let answerIndex : Int :=
        match a.answerIndex with
        | some i => max 0 (min maxIndex i)
        | none => 0
      .ok ⟨raw.slideType, title, body,
        ⟨normalizeText a.prompt, options, answerIndex,
          normalizeText a.correctFeedback, normalizeText a.incorrectFeedback⟩⟩

/-- `lesson.py._sanitize_slide_payload`: normalize the overview, keep the first
three non-blank objectives, sanitize the first five slides (the loop may
raise), then require exactly three objectives, a non-blank overview, a
non-empty slide list and exactly five slides. -/
def sanitizeSlidePayload (raw : RawSlidesPayload) : Except String SlidesPayload :=
  let overview := normalizeText raw.overview
  let objectives :=
    ((raw.learningObjectives.filter (fun o => pyStrip o != "")).map normalizeText).take 3
  match mapExcept sanitizeSlide (raw.slides.take 5) with
  | .error e => .error e
  | .ok sanitized =>
    if objectives.length ≠ 3 then
      .error "Slide generation must return exactly three learning objectives"
    else if overview = "" ∨ sanitized = [] then
      .error "Slide generation returned incomplete content"
    else if sanitized.length ≠ 5 then
      .error "Slide generation did not return exactly five slides"
    else
      .ok ⟨overview, objectives, sanitized⟩

/-- `lesson.py._sanitize_practice_payload` (the same checks are inlined
verbatim at the end of `_generate_practice_payload`): at least three raw
options and a non-blank question before normalization, exactly three non-blank
options after; the `correct_option_index` passes through unchanged. -/
def sanitizePracticePayload (p : PracticePayload) : Except String PracticePayload :=
  if p.options.length < 3 then
    .error "Practice generation returned insufficient options"
  else if pyStrip p.question = "" then
    .error "Practice generation returned empty question"
  else
    let practiceOptions := survivingOptions p.options
    if practiceOptions.length ≠ 3 then
      .error "Practice generation must include exactly three options"
    else
      .ok ⟨normalizeText p.question, practiceOptions, p.correctOptionIndex,
        normalizeText p.correctFeedback, normalizeText p.incorrectFeedback⟩

/-! ## Stage generators (`lesson.py._generate_slide_payload`,
`_generate_practice_payload`)

The model capability is an oracle `inv : Bool → Except PyError α`; the boolean
is the `compact` flag of the prompt builder (`false` = first attempt with the
full prompt, `true` = the retry with the compact prompt). -/

/-- Python's `in` on strings: `needle` occurs as a contiguous substring. -/
def containsSub (needle : List Char) : List Char → Bool
  | [] => needle.isEmpty
  | c :: rest => needle.isPrefixOf (c :: rest) || containsSub needle rest

/-- A budget-kind failure: a `ValueError` whose lowered message contains
`"max_tokens"` (the `"max_tokens" in str(exc).lower()` test of both stages). -/
def isBudgetError : PyError → Bool
  | .valueError msg => containsSub "max_tokens".data (strLower msg).data
  | .otherError _ => false

/-- The shared retry skeleton of both stages: invoke once with the full
prompt; on a budget-kind failure retry exactly once with the compact prompt;
propagate any other failure unchanged. -/
def budgetRetry (inv : Bool → Except PyError α) : Except PyError α :=
  match inv false with
  | .ok v => .ok v
  | .error e => if isBudgetError e then inv true else .error e

/-- Post-processing of the slide stage: pass the raw result through
`_sanitize_slide_payload`, whose failure is a `ValueError`. -/
def slideFinish : Except PyError RawSlidesPayload → Except PyError SlidesPayload
  | .error e => .error e
  | .ok raw =>
    match sanitizeSlidePayload raw with
    | .error m => .error (.valueError m)
    | .ok s => .ok s

/-- `lesson.py._generate_slide_payload`. -/
def generateSlideStage (inv : Bool → Except PyError RawSlidesPayload) :
    Except PyError SlidesPayload :=
  slideFinish (budgetRetry inv)

/-- The objectives list `_generate_practice_payload` builds from the slide
payload before invoking the model. -/
def practiceObjectives (sp : SlidesPayload) : List String :=
  (sp.learningObjectives.filter (fun o => pyStrip o != "")).map normalizeText

/-- Post-processing of the practice stage: the inline copy of
`_sanitize_practice_payload` at the end of `_generate_practice_payload`. -/
def practiceFinish : Except PyError PracticePayload → Except PyError PracticePayload
  | .error e => .error e
  | .ok raw =>
    match sanitizePracticePayload raw with
    | .error m => .error (.valueError m)
    | .ok p => .ok p

/-- `lesson.py._generate_practice_payload`: require a non-blank overview,
a non-empty objectives list and a non-empty slide list, then invoke with the
budget retry and sanitize the result. -/
def generatePracticeStage (inv : Bool → Except PyError PracticePayload)
    (sp : SlidesPayload) : Except PyError PracticePayload :=
  if normalizeText sp.overview = "" ∨ practiceObjectives sp = [] ∨ sp.slides = [] then
    .error (.valueError
      "Practice generation requires non-empty lesson overview, objectives, and slides")
  else
    practiceFinish (budgetRetry inv)

/-! ## Lesson orchestrator (`lesson.py.generate_lesson_assets`,
`attach_practice_to_slides`) -/

/-- The assessment dict `attach_practice_to_slides` builds from the practice
payload (the constant `"type": "choice"` tag is omitted). -/
def practiceAssessment (p : PracticePayload) : Assessment :=
  ⟨p.question, p.options, p.correctOptionIndex, p.correctFeedback, p.incorrectFeedback⟩

/-- Replace the assessment of the last slide of a list. -/
def replaceLast (a : Assessment) : List Slide → List Slide
  | [] => []
  | [s] => [{ s with assessment := a }]
  | s :: rest => s :: replaceLast a rest

/-- `lesson.py.attach_practice_to_slides`: splice the practice question into
the final slide's assessment; an empty slide list is returned unchanged. -/
def attachPractice (sp : SlidesPayload) (p : PracticePayload) : SlidesPayload :=
  if sp.slides.isEmpty then sp
  else { sp with slides := replaceLast (practiceAssessment p) sp.slides }

/-- The primary (tool-orchestrated) path of `generate_lesson_assets`: the
orchestrating agent's invocation, JSON parse and pydantic validation are
modelled together as one oracle `orch` producing the two raw payloads (or
failing); its result is run through both sanitizers. -/
def primaryLesson (orch : Except PyError (RawSlidesPayload × PracticePayload)) :
    Except PyError (SlidesPayload × PracticePayload) :=
  match orch with
  | .error e => .error e
  | .ok (rs, rp) =>
    match sanitizeSlidePayload rs with
    | .error m => .error (.valueError m)
    | .ok s =>
      match sanitizePracticePayload rp with
      | .error m => .error (.valueError m)
      | .ok p => .ok (s, p)

/-- The fallback path of `generate_lesson_assets`: call the two stage
generators directly and sequentially, the practice stage fed the validated
slide output. -/
def fallbackLesson (slideInv : Bool → Except PyError RawSlidesPayload)
    (practiceInv : Bool → Except PyError PracticePayload) :
    Except PyError (SlidesPayload × PracticePayload) :=
  match generateSlideStage slideInv with
  | .error e => .error e
  | .ok s =>
    match generatePracticeStage practiceInv s with
    | .error e => .error e
    | .ok p => .ok (s, p)

/-- The post-processing shared by both paths: attach the practice to the final
slide and return the pair (`slides_with_practice`, practice). -/
def finishLesson : Except PyError (SlidesPayload × PracticePayload) →
    Except PyError (SlidesPayload × PracticePayload)
  | .error e => .error e
  | .ok (s, p) => .ok (attachPractice s p, p)

/-- `lesson.py.generate_lesson_assets`: try the orchestrated path; on any
exception fall back to the direct sequential stage calls; then attach the
practice to the final slide. -/
def generateLessonAssets (orch : Except PyError (RawSlidesPayload × PracticePayload))
    (slideInv : Bool → Except PyError RawSlidesPayload)
    (practiceInv : Bool → Except PyError PracticePayload) :
    Except PyError (SlidesPayload × PracticePayload) :=
  finishLesson
    (match primaryLesson orch with
     | .ok pair => .ok pair
     | .error _ => fallbackLesson slideInv practiceInv)

/-! ## Curriculum planner (`curriculum.py`) -/

/-- `schemas.CurriculumSubject`. -/
structure CurriculumSubject where
  name : String
  slug : String
  deriving DecidableEq, Repr

/-- `curriculum.py._sanitize_sequence`: keep stripped non-blank entries, stop
as soon as `limit` entries have been collected (the entry that reaches the
limit is still appended). `count` is the number already collected. -/
def sanitizeSeqAux (limit : Nat) (count : Nat) : List String → List String
  | [] => []
  | v :: rest =>
    let candidate := pyStrip v
    if candidate = "" then sanitizeSeqAux limit count rest
    else if limit ≤ count + 1 then [candidate]
    else candidate :: sanitizeSeqAux limit (count + 1) rest

def sanitizeSequence (values : List String) (limit : Nat) : List String :=
  sanitizeSeqAux limit 0 values

/-- The `while slug in seen` suffix search of `_normalize_subjects`, with
explicit fuel; `seen.length + 1` candidate suffixes always contain a fresh one,
so the fuel-exhausted branch is unreachable in `freshSlug`. -/
def freshSlugAux (seen : List String) (base : String) : Nat → Nat → String
  | 0, k => base ++ "-" ++ toString k
  | fuel + 1, k =>
    let candidate := base ++ "-" ++ toString k
    if seen.contains candidate then freshSlugAux seen base fuel (k + 1) else candidate

/-- Pick `base` if unseen, else the first unseen `base-k` for `k = 2, 3, …`. -/
def freshSlug (seen : List String) (base : String) : String :=
  if seen.contains base then freshSlugAux seen base (seen.length + 1) 2 else base

/-- `curriculum.py._normalize_subjects`: slug every entry, de-duplicating
against the slugs already emitted. -/
def normalizeSubjectsAux (seen : List String) : List String → List CurriculumSubject
  | [] => []
  | name :: rest =>
    let slug := freshSlug seen (slugify name)
    ⟨name, slug⟩ :: normalizeSubjectsAux (slug :: seen) rest

def normalizeSubjects (entries : List String) : List CurriculumSubject :=
  normalizeSubjectsAux [] entries

/-- `curriculum.py.generate_subject_list`: an explicit non-empty subject
preference list (sanitized with limit 20) bypasses generation entirely;
otherwise the model oracle's list is sanitized with limit 12 and normalized. -/
def generateSubjectList (oracle : Except PyError (List String))
    (subjects : Option (List String)) : Except PyError (List CurriculumSubject) :=
  let preferred := sanitizeSequence (subjects.getD []) 20
  if preferred ≠ [] then .ok (normalizeSubjects preferred)
  else
    match oracle with
    | .error e => .error e
    | .ok raw => .ok (normalizeSubjects (sanitizeSequence raw 12))

/-- Insert-or-replace into an association list, modelling assignment into the
Python dict `topics`. -/
def dictSet (m : List (String × List String)) (k : String) (v : List String) :
    List (String × List String) :=
  match m with
  | [] => [(k, v)]
  | (k', v') :: rest => if k' = k then (k, v) :: rest else (k', v') :: dictSet rest k v

/-- `curriculum.py.generate_topic_map`: for each subject in order, invoke the
model oracle and store the sanitized topic list (limit 7) under the subject's
slug; the first failure aborts the whole map. -/
def generateTopicMap (oracle : CurriculumSubject → Except PyError (List String)) :
    List CurriculumSubject → List (String × List String) →
      Except PyError (List (String × List String))
  | [], acc => .ok acc
  | subject :: rest, acc =>
    match oracle subject with
    | .error e => .error e
    | .ok raw => generateTopicMap oracle rest (dictSet acc subject.slug (sanitizeSequence raw 7))

/-! ## Streaming event publisher (`routes.py`)

The `event_publisher` loops of `stream_lesson` and `generate_curriculum_stream`
are textually identical: pull items from the queue, republish each one, and on
the `None` sentinel yield the `"[DONE]"` marker and stop. A queue entry is
modelled as `Option QueueItem` (`none` = the `None` sentinel the producer
enqueues in its `finally`), and the prefix of entries the loop consumes as a
list. -/

/-- An item the producer or heartbeat task enqueues: a named content event or
a keepalive ping. -/
inductive QueueItem where
  | message (data : String)
  | ping
  deriving DecidableEq, Repr

/-- An item yielded to the SSE subscriber. -/
inductive StreamItem where
  | event (q : QueueItem)
  | doneMarker
  deriving DecidableEq, Repr

/-- The publisher loop shared by `stream_lesson` and
`generate_curriculum_stream`: yield queue items in order until the `None`
sentinel, then yield `"[DONE]"` and break. -/
def eventPublisherLoop : List (Option QueueItem) → List StreamItem
  | [] => []
  | none :: _ => [.doneMarker]
  | some q :: rest => .event q :: eventPublisherLoop rest

/-! ## Helper lemmas about the content validator -/

/-- A successfully sanitized slide has exactly three options and a clamped
answer index. -/
theorem sanitizeSlide_ok {raw : RawSlide} {s : Slide}
    (h : sanitizeSlide raw = .ok s) :
    s.assessment.options.length = 3 ∧
      0 ≤ s.assessment.answerIndex ∧ s.assessment.answerIndex ≤ 2 := by
  unfold sanitizeSlide at h
  split at h
  · exact absurd h (by simp)
  · rename_i a ha
    simp only at h
    split at h
    · exact absurd h (by simp)
    · rename_i hlen
      rw [not_ne_iff] at hlen
      rw [Except.ok.injEq] at h
      subst h
      refine ⟨hlen, ?_⟩
      simp only [hlen]
      split
      · rename_i i hi
        constructor
        · exact le_max_left 0 _
        · have : min ((3 : Int) - 1) i ≤ 2 := le_trans (min_le_left _ _) (by norm_num)
          exact max_le (by norm_num) this
      · exact ⟨le_refl 0, by norm_num⟩

theorem mapExcept_ok_mem {f : α → Except ε β} {l : List α} {out : List β}
    (h : mapExcept f l = .ok out) : ∀ y ∈ out, ∃ x, f x = .ok y := by
  induction l generalizing out with
  | nil =>
    simp only [mapExcept, Except.ok.injEq] at h
    subst h; simp
  | cons x xs ih =>
    simp only [mapExcept] at h
    split at h
    · exact absurd h (by simp)
    · rename_i y hy
      split at h
      · exact absurd h (by simp)
      · rename_i ys hys
        rw [Except.ok.injEq] at h
        subst h
        intro z hz
        rcases List.mem_cons.mp hz with hz | hz
        · exact ⟨x, hz ▸ hy⟩
        · exact ih hys z hz

/-- Everything `_sanitize_slide_payload` guarantees on success: exactly three
objectives, exactly five slides, every assessment with exactly three options
and a clamped answer index, and a non-blank overview (which the output
carries verbatim). -/
theorem sanitizeSlidePayload_ok {raw : RawSlidesPayload} {sp : SlidesPayload}
    (h : sanitizeSlidePayload raw = .ok sp) :
    sp.learningObjectives.length = 3 ∧ sp.slides.length = 5 ∧
      (∀ s ∈ sp.slides,
        s.assessment.options.length = 3 ∧
          0 ≤ s.assessment.answerIndex ∧ s.assessment.answerIndex ≤ 2) ∧
      sp.overview = normalizeText raw.overview ∧ normalizeText raw.overview ≠ "" := by
  unfold sanitizeSlidePayload at h
  split at h
  · exact absurd h (by simp)
  · rename_i sanitized hsan
    simp only at h
    split at h
    · exact absurd h (by simp)
    · rename_i hobj
      split at h
      · exact absurd h (by simp)
      · rename_i hover
        split at h
        · exact absurd h (by simp)
        · rename_i hfive
          rw [not_ne_iff] at hobj hfive
          rw [Except.ok.injEq] at h
          subst h
          push_neg at hover
          exact ⟨hobj, hfive,
            fun s hs => by
              obtain ⟨x, hx⟩ := mapExcept_ok_mem hsan s hs
              exact sanitizeSlide_ok hx,
            rfl, hover.1⟩

/-- What `_sanitize_practice_payload` guarantees on success: exactly three
options, and the correct-option index passed through unchanged (it is never
range-checked or clamped). -/
theorem sanitizePracticePayload_ok {raw p : PracticePayload}
    (h : sanitizePracticePayload raw = .ok p) :
    p.options.length = 3 ∧ p.correctOptionIndex = raw.correctOptionIndex := by
  unfold sanitizePracticePayload at h
  split at h
  · exact absurd h (by simp)
  · split at h
    · exact absurd h (by simp)
    · simp only at h
      split at h
      · exact absurd h (by simp)
      · rename_i hlen
        rw [not_ne_iff] at hlen
        rw [Except.ok.injEq] at h
        subst h
        exact ⟨hlen, rfl⟩

/-! ## Helper lemmas about `attach_practice_to_slides` -/

theorem replaceLast_length (a : Assessment) (l : List Slide) :
    (replaceLast a l).length = l.length := by
  induction l with
  | nil => rfl
  | cons x rest ih =>
    cases rest with
    | nil => rfl
    | cons y t => simpa [replaceLast] using ih

theorem replaceLast_dropLast (a : Assessment) (l : List Slide) :
    (replaceLast a l).dropLast = l.dropLast := by
  induction l with
  | nil => rfl
  | cons x rest ih =>
    cases rest with
    | nil => rfl
    | cons y t =>
      show (x :: replaceLast a (y :: t)).dropLast = _
      have hne : replaceLast a (y :: t) ≠ [] := by
        cases t <;> simp [replaceLast]
      rcases List.exists_cons_of_ne_nil hne with ⟨z, zs, hz⟩
      rw [hz, List.dropLast_cons₂, ← hz, ih, List.dropLast_cons₂]

theorem replaceLast_getLast? (a : Assessment) (l : List Slide) :
    (replaceLast a l).getLast? = l.getLast?.map (fun s => { s with assessment := a }) := by
  induction l with
  | nil => rfl
  | cons x rest ih =>
    cases rest with
    | nil => rfl
    | cons y t =>
      show (x :: replaceLast a (y :: t)).getLast? = _
      have hne : replaceLast a (y :: t) ≠ [] := by
        cases t <;> simp [replaceLast]
      rcases List.exists_cons_of_ne_nil hne with ⟨z, zs, hz⟩
      rw [hz, List.getLast?_cons_cons, ← hz, ih, List.getLast?_cons_cons]

theorem attachPractice_slides (sp : SlidesPayload) (p : PracticePayload)
    (h : sp.slides ≠ []) :
    (attachPractice sp p).slides = replaceLast (practiceAssessment p) sp.slides := by
  unfold attachPractice
  rw [if_neg (by simpa using h)]

theorem attachPractice_objectives (sp : SlidesPayload) (p : PracticePayload) :
    (attachPractice sp p).learningObjectives = sp.learningObjectives := by
  unfold attachPractice
  split <;> rfl

/-! ## Success characterization of `generate_lesson_assets` -/

theorem generateSlideStage_ok {inv : Bool → Except PyError RawSlidesPayload}
    {s : SlidesPayload} (h : generateSlideStage inv = .ok s) :
    ∃ raw, sanitizeSlidePayload raw = .ok s := by
  unfold generateSlideStage slideFinish at h
  split at h
  · exact absurd h (by simp)
  · rename_i raw hraw
    split at h
    · exact absurd h (by simp)
    · rename_i s' hs'
      rw [Except.ok.injEq] at h
      exact ⟨raw, h ▸ hs'⟩

theorem generatePracticeStage_ok {inv : Bool → Except PyError PracticePayload}
    {sp : SlidesPayload} {p : PracticePayload}
    (h : generatePracticeStage inv sp = .ok p) :
    ∃ raw, sanitizePracticePayload raw = .ok p := by
  unfold generatePracticeStage at h
  split at h
  · exact absurd h (by simp)
  · unfold practiceFinish at h
    split at h
    · exact absurd h (by simp)
    · rename_i raw hraw
      split at h
      · exact absurd h (by simp)
      · rename_i p' hp'
        rw [Except.ok.injEq] at h
        exact ⟨raw, h ▸ hp'⟩

theorem primaryLesson_ok {orch : Except PyError (RawSlidesPayload × PracticePayload)}
    {s : SlidesPayload} {p : PracticePayload}
    (h : primaryLesson orch = .ok (s, p)) :
    (∃ raw, sanitizeSlidePayload raw = .ok s) ∧
      ∃ raw, sanitizePracticePayload raw = .ok p := by
  unfold primaryLesson at h
  split at h
  · exact absurd h (by simp)
  · rename_i pair rs rp
    split at h
    · exact absurd h (by simp)
    · rename_i s' hs'
      split at h
      · exact absurd h (by simp)
      · rename_i p' hp'
        rw [Except.ok.injEq, Prod.mk.injEq] at h
        exact ⟨⟨rs, h.1 ▸ hs'⟩, ⟨rp, h.2 ▸ hp'⟩⟩

theorem fallbackLesson_ok {slideInv : Bool → Except PyError RawSlidesPayload}
    {practiceInv : Bool → Except PyError PracticePayload}
    {s : SlidesPayload} {p : PracticePayload}
    (h : fallbackLesson slideInv practiceInv = .ok (s, p)) :
    (∃ raw, sanitizeSlidePayload raw = .ok s) ∧
      ∃ raw, sanitizePracticePayload raw = .ok p := by
  unfold fallbackLesson at h
  split at h
  · exact absurd h (by simp)
  · rename_i s' hs'
    split at h
    · exact absurd h (by simp)
    · rename_i p' hp'
      rw [Except.ok.injEq, Prod.mk.injEq] at h
      exact ⟨generateSlideStage_ok (h.1 ▸ hs'), generatePracticeStage_ok (h.2 ▸ hp')⟩

/-- Every successful `generate_lesson_assets` result — on either path — is an
`attach_practice_to_slides` of a pair that passed the two sanitizers. -/
theorem generateLessonAssets_ok
    {orch : Except PyError (RawSlidesPayload × PracticePayload)}
    {slideInv : Bool → Except PyError RawSlidesPayload}
    {practiceInv : Bool → Except PyError PracticePayload}
    {assets : SlidesPayload} {p : PracticePayload}
    (h : generateLessonAssets orch slideInv practiceInv = .ok (assets, p)) :
    ∃ s, assets = attachPractice s p ∧
      (∃ raw, sanitizeSlidePayload raw = .ok s) ∧
      ∃ raw, sanitizePracticePayload raw = .ok p := by
  unfold generateLessonAssets finishLesson at h
  split at h
  · exact absurd h (by simp)
  · rename_i pair s' p' hpair
    rw [Except.ok.injEq, Prod.mk.injEq] at h
    obtain ⟨ha, hp⟩ := h
    subst hp
    refine ⟨s', ha.symm, ?_⟩
    split at hpair
    · rename_i hprim
      rw [Except.ok.injEq] at hpair
      exact primaryLesson_ok (hpair ▸ hprim)
    · exact fallbackLesson_ok hpair

/-! ## Concrete fixtures -/

/-- A well-formed raw assessment. -/
def exampleAssessment : RawAssessment := ⟨"Prompt?", ["o1", "o2", "o3"], some 1, "yes", "no"⟩

/-- A well-formed raw slide with the given body text. -/
def exampleSlide (body : String) : RawSlide :=
  ⟨.conceptIntroduction, "Title", body, some exampleAssessment⟩

/-- A raw slide payload that the validator accepts. -/
def exampleRawSlides : RawSlidesPayload :=
  ⟨"Overview", ["obj1", "obj2", "obj3"],
    [exampleSlide "b1", exampleSlide "b2", exampleSlide "b3",
      exampleSlide "b4", exampleSlide "b5"]⟩

/-- The sanitized form of `exampleRawSlides` (its texts are already
normalized, so they pass through unchanged). -/
def exampleSanitized : SlidesPayload :=
  ⟨"Overview", ["obj1", "obj2", "obj3"],
    [⟨.conceptIntroduction, "Title", "b1", ⟨"Prompt?", ["o1", "o2", "o3"], 1, "yes", "no"⟩⟩,
     ⟨.conceptIntroduction, "Title", "b2", ⟨"Prompt?", ["o1", "o2", "o3"], 1, "yes", "no"⟩⟩,
     ⟨.conceptIntroduction, "Title", "b3", ⟨"Prompt?", ["o1", "o2", "o3"], 1, "yes", "no"⟩⟩,
     ⟨.conceptIntroduction, "Title", "b4", ⟨"Prompt?", ["o1", "o2", "o3"], 1, "yes", "no"⟩⟩,
     ⟨.conceptIntroduction, "Title", "b5", ⟨"Prompt?", ["o1", "o2", "o3"], 1, "yes", "no"⟩⟩]⟩

/-- Like `exampleRawSlides` but the first slide's body is whitespace only,
hence blank after normalization. -/
def blankBodyRawSlides : RawSlidesPayload :=
  ⟨"Overview", ["obj1", "obj2", "obj3"],
    [exampleSlide "  ", exampleSlide "b2", exampleSlide "b3",
      exampleSlide "b4", exampleSlide "b5"]⟩

/-! ## C1 -/

/-- C1: every raw slide payload the validator accepts yields a `SlideSet` with
exactly 3 learning objectives, exactly 5 slides, and on every slide an
assessment with exactly 3 options and an answer index in `[0, 2]`. -/
theorem slide_validator_contract (raw : RawSlidesPayload) (sp : SlidesPayload)
    (h : sanitizeSlidePayload raw = .ok sp) :
    sp.learningObjectives.length = 3 ∧ sp.slides.length = 5 ∧
      ∀ s ∈ sp.slides,
        s.assessment.options.length = 3 ∧
          0 ≤ s.assessment.answerIndex ∧ s.assessment.answerIndex ≤ 2 := by
  obtain ⟨h1, h2, h3, -, -⟩ := sanitizeSlidePayload_ok h
  exact ⟨h1, h2, h3⟩

/-- C1 witness: the validator accepts `exampleRawSlides`, and the contract
holds of the result. -/
theorem slide_validator_contract_witness :
    sanitizeSlidePayload exampleRawSlides = .ok exampleSanitized ∧
      (exampleSanitized.learningObjectives.length = 3 ∧
        exampleSanitized.slides.length = 5 ∧
        ∀ s ∈ exampleSanitized.slides,
          s.assessment.options.length = 3 ∧
            0 ≤ s.assessment.answerIndex ∧ s.assessment.answerIndex ≤ 2) :=
  ⟨by rfl, slide_validator_contract exampleRawSlides exampleSanitized (by rfl)⟩

/-! ## C5 -/

/-- C5 counterexample: a payload with a slide body that is blank after
normalization is nevertheless accepted by the validator. -/
theorem blank_body_accepted :
    (blankBodyRawSlides.slides.map (fun s => normalizeText s.bodyMd)).contains "" = true ∧
      (sanitizeSlidePayload blankBodyRawSlides).isOk = true := by
  decide

/-- C5 (amended): a blank slide body does not cause rejection — the validator
can return a sanitized `SlideSet` containing a blank body. Blankness is only
enforced for the overview: every accepted payload has a non-blank overview. -/
theorem blank_overview_rejected :
    (∀ raw sp, sanitizeSlidePayload raw = .ok sp → normalizeText raw.overview ≠ "") ∧
      (sanitizeSlidePayload blankBodyRawSlides).isOk = true :=
  ⟨fun _ _ h => (sanitizeSlidePayload_ok h).2.2.2.2, by decide⟩

/-- C5 witness: the amended overview property at a concrete accepted input. -/
theorem blank_overview_rejected_witness :
    sanitizeSlidePayload exampleRawSlides = .ok exampleSanitized ∧
      normalizeText exampleRawSlides.overview ≠ "" :=
  ⟨by rfl, blank_overview_rejected.1 exampleRawSlides exampleSanitized (by rfl)⟩

/-! ## C6 -/

/-- C6: when a slide's assessment has exactly 3 surviving options, the
sanitizer succeeds regardless of the answer index; an integer index is
replaced by its clamp into `[0, optionCount-1] = [0, 2]` and a non-integer
index by `0`. -/
theorem answer_index_repair (raw : RawSlide) (a : RawAssessment)
    (ha : raw.assessment = some a)
    (hlen : (survivingOptions a.options).length = 3) :
    ∃ s, sanitizeSlide raw = .ok s ∧
      s.assessment.answerIndex =
        (match a.answerIndex with
         | some i => max 0 (min 2 i)
         | none => 0) := by
  unfold sanitizeSlide
  rw [ha]
  simp only [hlen]
  norm_num

/-- An out-of-range integer answer index (10 with 3 options). -/
def outOfRangeAssessment : RawAssessment := ⟨"P", ["a", "b", "c"], some 10, "x", "y"⟩

def outOfRangeSlide : RawSlide := ⟨.synthesis, "T", "B", some outOfRangeAssessment⟩

/-- C6 witness: with index 10 and 3 options the sanitizer succeeds and clamps
the index to 2. -/
theorem answer_index_repair_witness :
    outOfRangeSlide.assessment = some outOfRangeAssessment ∧
      (survivingOptions outOfRangeAssessment.options).length = 3 ∧
      ∃ s, sanitizeSlide outOfRangeSlide = .ok s ∧
        s.assessment.answerIndex =
          (match outOfRangeAssessment.answerIndex with
           | some i => max 0 (min 2 i)
           | none => 0) :=
  ⟨rfl, by decide, answer_index_repair outOfRangeSlide outOfRangeAssessment rfl (by decide)⟩

/-! ## C2 -/

/-- Membership in `replaceLast`: every slide is an original slide or the final
slide with its assessment replaced. -/
theorem replaceLast_mem {a : Assessment} {l : List Slide} {x : Slide}
    (h : x ∈ replaceLast a l) :
    x ∈ l ∨ ∃ y, y ∈ l ∧ x = { y with assessment := a } := by
  induction l with
  | nil => cases h
  | cons z rest ih =>
    cases rest with
    | nil =>
      rcases List.mem_singleton.mp h with h
      exact .inr ⟨z, List.mem_singleton.mpr rfl, h⟩
    | cons y t =>
      rcases List.mem_cons.mp h with h | h
      · exact .inl (h ▸ List.mem_cons_self _ _)
      · rcases ih h with h | ⟨w, hw, hx⟩
        · exact .inl (List.mem_cons_of_mem _ h)
        · exact .inr ⟨w, List.mem_cons_of_mem _ hw, hx⟩

/-- The structural invariant that both lesson-generation paths guarantee,
because both route their halves through the same two sanitizers. -/
theorem lessonAssets_valid
    {orch : Except PyError (RawSlidesPayload × PracticePayload)}
    {slideInv : Bool → Except PyError RawSlidesPayload}
    {practiceInv : Bool → Except PyError PracticePayload}
    {assets : SlidesPayload} {p : PracticePayload}
    (h : generateLessonAssets orch slideInv practiceInv = .ok (assets, p)) :
    assets.learningObjectives.length = 3 ∧ assets.slides.length = 5 ∧
      (∀ s ∈ assets.slides, s.assessment.options.length = 3) ∧
      p.options.length = 3 := by
  obtain ⟨s, hassets, ⟨rs, hrs⟩, ⟨rp, hrp⟩⟩ := generateLessonAssets_ok h
  obtain ⟨h1, h2, h3, -, -⟩ := sanitizeSlidePayload_ok hrs
  obtain ⟨hp3, -⟩ := sanitizePracticePayload_ok hrp
  have hne : s.slides ≠ [] := by
    intro hnil
    rw [hnil] at h2
    exact absurd h2 (by decide)
  subst hassets
  rw [attachPractice_objectives]
  rw [attachPractice_slides s p hne, replaceLast_length]
  refine ⟨h1, h2, ?_, hp3⟩
  intro x hx
  rcases replaceLast_mem hx with hx | ⟨y, hy, hxy⟩
  · exact (h3 x hx).1
  · subst hxy
    simpa [practiceAssessment] using hp3

/-- C2: whenever the orchestrated path fails (for any reason), lesson
generation equals the direct sequential fallback composition — slide stage,
then practice stage fed the validated slides, then the shared
attach-and-return post-processing; and every successful result, from either
path, satisfies the invariant enforced by the shared validators, so a caller
cannot tell the paths apart on a successful `LessonAssets`. -/
theorem orchestrator_fallback
    (orch : Except PyError (RawSlidesPayload × PracticePayload))
    (slideInv : Bool → Except PyError RawSlidesPayload)
    (practiceInv : Bool → Except PyError PracticePayload) :
    ((primaryLesson orch).isOk = false →
      generateLessonAssets orch slideInv practiceInv =
        finishLesson (fallbackLesson slideInv practiceInv)) ∧
    ∀ assets p, generateLessonAssets orch slideInv practiceInv = .ok (assets, p) →
      assets.learningObjectives.length = 3 ∧ assets.slides.length = 5 ∧
        (∀ s ∈ assets.slides, s.assessment.options.length = 3) ∧
        p.options.length = 3 := by
  constructor
  · intro hfail
    unfold generateLessonAssets
    match hprim : primaryLesson orch with
    | .ok pair => rw [hprim] at hfail; exact absurd hfail (by simp [Except.isOk, Except.toBool])
    | .error e => rfl
  · exact fun assets p h => lessonAssets_valid h

/-- An orchestrated path that fails outright. -/
def lessonOrchFailure : Except PyError (RawSlidesPayload × PracticePayload) :=
  .error (.otherError "orchestrator agent failed")

/-- A direct slide-stage oracle that succeeds on the first attempt. -/
def fallbackSlideInv : Bool → Except PyError RawSlidesPayload :=
  fun _ => .ok exampleRawSlides

/-- A well-formed practice payload whose index is in range. -/
def goodPractice : PracticePayload := ⟨"Q?", ["p1", "p2", "p3"], 1, "cf", "if"⟩

/-- A direct practice-stage oracle that succeeds on the first attempt. -/
def fallbackPracticeInv : Bool → Except PyError PracticePayload :=
  fun _ => .ok goodPractice

/-- C2 witness: with a failing orchestrator and succeeding direct stages, the
result is the fallback composition and satisfies the shared invariant. -/
theorem orchestrator_fallback_witness :
    (primaryLesson lessonOrchFailure).isOk = false ∧
      (generateLessonAssets lessonOrchFailure fallbackSlideInv fallbackPracticeInv =
        finishLesson (fallbackLesson fallbackSlideInv fallbackPracticeInv)) :=
  ⟨by decide,
    (orchestrator_fallback lessonOrchFailure fallbackSlideInv fallbackPracticeInv).1 (by decide)⟩

/-! ## C4 -/

/-- C4 counterexample: a practice payload with `correctOptionIndex = 5` flows
through lesson generation unclamped, so the final slide's assessment carries
answer index 5 ∉ [0, 2]. -/
def overflowPractice : PracticePayload := ⟨"Q?", ["p1", "p2", "p3"], 5, "cf", "if"⟩

/-- An unused direct-stage oracle (the primary path succeeds). -/
def unusedSlideInv : Bool → Except PyError RawSlidesPayload :=
  fun _ => .error (.otherError "unused")

def unusedPracticeInv : Bool → Except PyError PracticePayload :=
  fun _ => .error (.otherError "unused")

theorem final_slide_index_out_of_range :
    (generateLessonAssets (.ok (exampleRawSlides, overflowPractice))
        unusedSlideInv unusedPracticeInv).map
      (fun pair => pair.1.slides.getLast?.map (fun s => s.assessment.answerIndex)) =
      .ok (some 5) ∧ ¬((5 : Int) ≤ 2) :=
  ⟨by rfl, by decide⟩

/-- C4 (amended): in every `LessonAssets` returned by lesson generation, every
slide except the final one has an answer index in `[0, 2]`; the final slide's
assessment is the practice question and its index equals the practice's
`correctOptionIndex`, which is passed through without any range check. -/
theorem answer_index_bounds_except_final
    (orch : Except PyError (RawSlidesPayload × PracticePayload))
    (slideInv : Bool → Except PyError RawSlidesPayload)
    (practiceInv : Bool → Except PyError PracticePayload)
    (assets : SlidesPayload) (p : PracticePayload)
    (h : generateLessonAssets orch slideInv practiceInv = .ok (assets, p)) :
    (∀ s ∈ assets.slides.dropLast,
      0 ≤ s.assessment.answerIndex ∧ s.assessment.answerIndex ≤ 2) ∧
      assets.slides.getLast?.map (fun s => s.assessment.answerIndex) =
        some p.correctOptionIndex := by
  obtain ⟨s, hassets, ⟨rs, hrs⟩, ⟨rp, hrp⟩⟩ := generateLessonAssets_ok h
  obtain ⟨-, h2, h3, -, -⟩ := sanitizeSlidePayload_ok hrs
  have hne : s.slides ≠ [] := by
    intro hnil
    rw [hnil] at h2
    exact absurd h2 (by decide)
  subst hassets
  rw [attachPractice_slides s p hne, replaceLast_dropLast, replaceLast_getLast?]
  constructor
  · intro x hx
    exact (h3 x (List.dropLast_subset _ hx)).2
  · rcases hlast : s.slides.getLast? with - | y
    · exact absurd (List.getLast?_eq_none_iff.mp hlast) hne
    · simp [practiceAssessment]

/-- The assets produced by the counterexample run: `exampleSanitized` with the
final slide's assessment replaced by `overflowPractice`. -/
def overflowAssets : SlidesPayload :=
  ⟨"Overview", ["obj1", "obj2", "obj3"],
    [⟨.conceptIntroduction, "Title", "b1", ⟨"Prompt?", ["o1", "o2", "o3"], 1, "yes", "no"⟩⟩,
     ⟨.conceptIntroduction, "Title", "b2", ⟨"Prompt?", ["o1", "o2", "o3"], 1, "yes", "no"⟩⟩,
     ⟨.conceptIntroduction, "Title", "b3", ⟨"Prompt?", ["o1", "o2", "o3"], 1, "yes", "no"⟩⟩,
     ⟨.conceptIntroduction, "Title", "b4", ⟨"Prompt?", ["o1", "o2", "o3"], 1, "yes", "no"⟩⟩,
     ⟨.conceptIntroduction, "Title", "b5", ⟨"Q?", ["p1", "p2", "p3"], 5, "cf", "if"⟩⟩]⟩

/-- C4 witness for the amended claim, at the counterexample run itself. -/
theorem answer_index_bounds_except_final_witness :
    generateLessonAssets (.ok (exampleRawSlides, overflowPractice))
        unusedSlideInv unusedPracticeInv = .ok (overflowAssets, overflowPractice) ∧
      ((∀ s ∈ overflowAssets.slides.dropLast,
          0 ≤ s.assessment.answerIndex ∧ s.assessment.answerIndex ≤ 2) ∧
        overflowAssets.slides.getLast?.map (fun s => s.assessment.answerIndex) =
          some overflowPractice.correctOptionIndex) :=
  ⟨by rfl,
    answer_index_bounds_except_final (.ok (exampleRawSlides, overflowPractice))
      unusedSlideInv unusedPracticeInv overflowAssets overflowPractice (by rfl)⟩

/-! ## C3 -/

/-- C3: for both stages, if the first model invocation fails with a
budget-kind error the stage retries exactly once with the compact prompt
(`inv true`), returning that attempt's post-processed result or propagating
its failure; a non-budget failure propagates immediately with no retry. -/
theorem stage_budget_retry
    (slideInv : Bool → Except PyError RawSlidesPayload)
    (practiceInv : Bool → Except PyError PracticePayload)
    (sp : SlidesPayload) (es ep : PyError)
    (hs : slideInv false = .error es)
    (hp : practiceInv false = .error ep)
    (hpre : ¬(normalizeText sp.overview = "" ∨ practiceObjectives sp = [] ∨ sp.slides = [])) :
    (isBudgetError es = true →
      generateSlideStage slideInv = slideFinish (slideInv true)) ∧
    (isBudgetError es = false → generateSlideStage slideInv = .error es) ∧
    (isBudgetError ep = true →
      generatePracticeStage practiceInv sp = practiceFinish (practiceInv true)) ∧
    (isBudgetError ep = false → generatePracticeStage practiceInv sp = .error ep) := by
  unfold generateSlideStage generatePracticeStage budgetRetry
  rw [hs, hp, if_neg hpre]
  exact ⟨fun hb => by simp [hb],
    fun hb => by simp [hb, slideFinish],
    fun hb => by simp [hb],
    fun hb => by simp [hb, practiceFinish]⟩

/-- A budget-kind failure, as the patched runtime raises it. -/
def budgetFailure : PyError :=
  .valueError "Model returned stop_reason: max_tokens instead of tool_use."

/-- A non-budget failure. -/
def upstreamFailure : PyError := .otherError "upstream model unavailable"

/-- A slide oracle whose full-prompt attempt hits the budget and whose compact
retry succeeds. -/
def budgetSlideInv : Bool → Except PyError RawSlidesPayload :=
  fun compact => if compact then .ok exampleRawSlides else .error budgetFailure

/-- A practice oracle that fails with a non-budget error. -/
def brokenPracticeInv : Bool → Except PyError PracticePayload :=
  fun _ => .error upstreamFailure

/-- C3 witness: the retry equation at a concrete budget failure and the
immediate propagation at a concrete non-budget failure. -/
theorem stage_budget_retry_witness :
    budgetSlideInv false = .error budgetFailure ∧
      brokenPracticeInv false = .error upstreamFailure ∧
      ¬(normalizeText exampleSanitized.overview = "" ∨
          practiceObjectives exampleSanitized = [] ∨ exampleSanitized.slides = []) ∧
      ((isBudgetError budgetFailure = true →
          generateSlideStage budgetSlideInv = slideFinish (budgetSlideInv true)) ∧
        (isBudgetError budgetFailure = false →
          generateSlideStage budgetSlideInv = .error budgetFailure) ∧
        (isBudgetError upstreamFailure = true →
          generatePracticeStage brokenPracticeInv exampleSanitized =
            practiceFinish (brokenPracticeInv true)) ∧
        (isBudgetError upstreamFailure = false →
          generatePracticeStage brokenPracticeInv exampleSanitized =
            .error upstreamFailure)) :=
  ⟨rfl, rfl, by decide,
    stage_budget_retry budgetSlideInv brokenPracticeInv exampleSanitized
      budgetFailure upstreamFailure rfl rfl (by decide)⟩

/-! ## C7 -/

/-- C7: in every event sequence the publisher loop yields — for both the
lesson stream and the curriculum stream, whose loops are textually identical —
the `"[DONE]"` marker only ever occupies the final position: every earlier
item is an ordinary queue item, so nothing is emitted after the marker. -/
theorem done_marker_last (queue : List (Option QueueItem)) :
    ((eventPublisherLoop queue).dropLast.all (fun item => item != .doneMarker)) = true := by
  induction queue with
  | nil => rfl
  | cons x rest ih =>
    cases x with
    | none => rfl
    | some q =>
      show ((StreamItem.event q :: eventPublisherLoop rest).dropLast.all
        (fun item => item != .doneMarker)) = true
      cases h : eventPublisherLoop rest with
      | nil => rfl
      | cons y ys =>
        rw [h] at ih
        rw [List.dropLast_cons₂, List.all_cons, ih]
        rfl

/-! ## C8 -/

/-- C8: feeding the explicit subject-preference list
`["Biology", "biology!", "  "]` to the subject-list generator returns exactly
two subjects, in order, with slugs `biology` and `biology-2`: the blank entry
is dropped before slugging and the collision receives the `-2` suffix. The
model oracle is irrelevant — an explicit preference bypasses generation. -/
theorem subject_preference_slugging (oracle : Except PyError (List String)) :
    generateSubjectList oracle (some ["Biology", "biology!", "  "]) =
      .ok [⟨"Biology", "biology"⟩, ⟨"biology!", "biology-2"⟩] := by
  rfl

/-! ## C9 -/

/-- Values produced by `_sanitize_sequence` with limit 7: at most 7 entries,
none blank. -/
def sanitizedTopics (ts : List String) : Prop :=
  ts.length ≤ 7 ∧ ∀ t ∈ ts, t ≠ ""

theorem sanitizeSeqAux_length (limit : Nat) :
    ∀ (l : List String) (count : Nat), count < limit →
      (sanitizeSeqAux limit count l).length ≤ limit - count := by
  intro l
  induction l with
  | nil => intro count h; simp [sanitizeSeqAux]
  | cons v rest ih =>
    intro count h
    simp only [sanitizeSeqAux]
    by_cases hb : pyStrip v = ""
    · rw [if_pos hb]
      exact ih count h
    · rw [if_neg hb]
      by_cases hs : limit ≤ count + 1
      · rw [if_pos hs]
        simp only [List.length_singleton]
        omega
      · rw [if_neg hs]
        have := ih (count + 1) (by omega)
        simp only [List.length_cons]
        omega

theorem sanitizeSeqAux_nonblank (limit : Nat) :
    ∀ (l : List String) (count : Nat) (t : String),
      t ∈ sanitizeSeqAux limit count l → t ≠ "" := by
  intro l
  induction l with
  | nil => intro count t h; cases h
  | cons v rest ih =>
    intro count t h
    simp only [sanitizeSeqAux] at h
    by_cases hb : pyStrip v = ""
    · rw [if_pos hb] at h
      exact ih count t h
    · rw [if_neg hb] at h
      by_cases hs : limit ≤ count + 1
      · rw [if_pos hs, List.mem_singleton] at h
        exact h ▸ hb
      · rw [if_neg hs] at h
        rcases List.mem_cons.mp h with h | h
        · exact h ▸ hb
        · exact ih (count + 1) t h

theorem sanitizeSequence_topics (l : List String) :
    sanitizedTopics (sanitizeSequence l 7) :=
  ⟨by simpa using sanitizeSeqAux_length 7 l 0 (by omega),
    fun t ht => sanitizeSeqAux_nonblank 7 l 0 t ht⟩

theorem lookup_dictSet (m : List (String × List String)) (k : String) (v : List String) :
    (dictSet m k v).lookup k = some v := by
  induction m with
  | nil => simp [dictSet, List.lookup]
  | cons kv rest ih =>
    obtain ⟨k', v'⟩ := kv
    unfold dictSet
    split
    · rename_i he
      simp [List.lookup]
    · rename_i he
      rw [List.lookup, show (k == k') = false from by simpa using fun h => he h.symm]
      exact ih

theorem lookup_dictSet_ne (m : List (String × List String)) (k : String)
    (v : List String) (k' : String) (h : k' ≠ k) :
    (dictSet m k v).lookup k' = m.lookup k' := by
  induction m with
  | nil =>
    show List.lookup k' [(k, v)] = none
    rw [List.lookup, show (k' == k) = false from by simpa using h]
    rfl
  | cons kv rest ih =>
    obtain ⟨k₀, v₀⟩ := kv
    unfold dictSet
    split
    · rename_i he
      rw [List.lookup, show (k' == k) = false from by simpa using h,
        List.lookup, show (k' == k₀) = false from by rw [he]; simpa using h]
    · rw [List.lookup, List.lookup]
      cases hbe : k' == k₀
      · exact ih
      · rfl

/-- The loop invariant of `generate_topic_map`: on success, every value in the
accumulator stays sanitized, every processed subject's slug is a key, and keys
already present are preserved. -/
theorem generateTopicMap_invariant (oracle : CurriculumSubject → Except PyError (List String)) :
    ∀ (subjects : List CurriculumSubject) (acc m : List (String × List String)),
      generateTopicMap oracle subjects acc = .ok m →
      (∀ k ts, acc.lookup k = some ts → sanitizedTopics ts) →
      (∀ k ts, m.lookup k = some ts → sanitizedTopics ts) ∧
        (∀ k, (acc.lookup k).isSome = true → (m.lookup k).isSome = true) ∧
        ∀ subj ∈ subjects, ∃ ts, m.lookup subj.slug = some ts := by
  intro subjects
  induction subjects with
  | nil =>
    intro acc m h hacc
    rw [generateTopicMap, Except.ok.injEq] at h
    subst h
    exact ⟨hacc, fun k hk => hk, fun subj h => absurd h (List.not_mem_nil subj)⟩
  | cons subj rest ih =>
    intro acc m h hacc
    rw [generateTopicMap] at h
    split at h
    · exact absurd h (by simp)
    · rename_i raw hraw
      have hacc' : ∀ k ts,
          (dictSet acc subj.slug (sanitizeSequence raw 7)).lookup k = some ts →
            sanitizedTopics ts := by
        intro k ts hk
        by_cases hke : k = subj.slug
        · subst hke
          rw [lookup_dictSet] at hk
          cases hk
          exact sanitizeSequence_topics raw
        · rw [lookup_dictSet_ne _ _ _ _ hke] at hk
          exact hacc k ts hk
      obtain ⟨h1, h2, h3⟩ := ih _ _ h hacc'
      refine ⟨h1, ?_, ?_⟩
      · intro k hk
        apply h2
        by_cases hke : k = subj.slug
        · subst hke; rw [lookup_dictSet]; rfl
        · rw [lookup_dictSet_ne _ _ _ _ hke]; exact hk
      · intro s hs
        rcases List.mem_cons.mp hs with hs | hs
        · subst hs
          have : ((dictSet acc s.slug (sanitizeSequence raw 7)).lookup s.slug).isSome = true := by
            rw [lookup_dictSet]; rfl
          have := h2 s.slug this
          rcases hm : m.lookup s.slug with - | ts
          · rw [hm] at this; cases this
          · exact ⟨ts, rfl⟩
        · exact h3 s hs

/-- C9 counterexample: the model may legitimately return five topics one of
which is blank (the schema bounds only the list length); after blank filtering
only four topics remain, so the slug is mapped to fewer than 5 strings. -/
def mathSubject : CurriculumSubject := ⟨"Mathematics", "mathematics"⟩

def blankTopicOracle : CurriculumSubject → Except PyError (List String) :=
  fun _ => .ok ["a", "b", "c", "d", "  "]

theorem topic_map_short_entry :
    generateTopicMap blankTopicOracle [mathSubject] [] =
      .ok [("mathematics", ["a", "b", "c", "d"])] ∧
      ¬(5 ≤ (["a", "b", "c", "d"] : List String).length) :=
  ⟨rfl, by decide⟩

/-- C9 (amended): on success, each input subject's slug is a key of the topic
map, mapped to at most 7 non-empty strings (blank entries are filtered out, so
fewer than 5 may survive; the 5–7 range holds only for the raw model list). -/
theorem topic_map_contract (oracle : CurriculumSubject → Except PyError (List String))
    (subjects : List CurriculumSubject) (m : List (String × List String))
    (h : generateTopicMap oracle subjects [] = .ok m) :
    ∀ subj ∈ subjects, ∃ ts, m.lookup subj.slug = some ts ∧
      ts.length ≤ 7 ∧ ∀ t ∈ ts, t ≠ "" := by
  obtain ⟨h1, -, h3⟩ := generateTopicMap_invariant oracle subjects [] m h
    (fun k ts hk => by cases hk)
  intro subj hs
  obtain ⟨ts, hts⟩ := h3 subj hs
  obtain ⟨hlen, hblank⟩ := h1 subj.slug ts hts
  exact ⟨ts, hts, hlen, hblank⟩

/-- C9 witness for the amended claim, at the counterexample run. -/
theorem topic_map_contract_witness :
    generateTopicMap blankTopicOracle [mathSubject] [] =
      .ok [("mathematics", ["a", "b", "c", "d"])] ∧
      mathSubject ∈ [mathSubject] ∧
      ∃ ts, ([("mathematics", ["a", "b", "c", "d"])] :
          List (String × List String)).lookup mathSubject.slug = some ts ∧
        ts.length ≤ 7 ∧ ∀ t ∈ ts, t ≠ "" :=
  ⟨rfl, List.mem_singleton.mpr rfl,
    topic_map_contract blankTopicOracle [mathSubject] _ rfl mathSubject
      (List.mem_singleton.mpr rfl)⟩

/-! ## C10: slug idempotence

A slug output consists of lowercase alphanumerics and single dashes, with no
dash at either end; on such strings every stage of `_slugify` is the
identity. -/

/-- A character that can appear in a slug: lowercase alphanumeric or dash. -/
def goodChar (c : Char) : Bool := isAsciiLowerAlnum c || isDash c

/-- No two adjacent dashes. -/
def NoDD (l : List Char) : Prop := l.Chain' (fun a b => ¬(a = '-' ∧ b = '-'))

theorem pyLower_not_upper (c : Char) :
    ¬(65 ≤ (pyLower c).toNat ∧ (pyLower c).toNat ≤ 90) := by
  unfold pyLower
  split
  · rename_i h
    obtain ⟨h1, h2⟩ := h
    have : (Char.ofNat (c.toNat + 32)).toNat = c.toNat + 32 := by
      set n := c.toNat with hn
      interval_cases n <;> decide
    rw [this]
    omega
  · rename_i h
    exact h

theorem pyLower_fixed (c : Char) (h : ¬(65 ≤ c.toNat ∧ c.toNat ≤ 90)) : pyLower c = c :=
  if_neg h

theorem goodChar_not_upper (c : Char) (h : goodChar c = true) :
    ¬(65 ≤ c.toNat ∧ c.toNat ≤ 90) := by
  simp only [goodChar, isAsciiLowerAlnum, isDash, Bool.or_eq_true, Bool.and_eq_true,
    decide_eq_true_eq] at h
  rcases h with (h | h) | h
  · omega
  · omega
  · subst h
    decide

theorem goodChar_pyLower_fixed (c : Char) (h : goodChar c = true) : pyLower c = c :=
  pyLower_fixed c (goodChar_not_upper c h)

theorem alnum_ne_dash (c : Char) (h : isAsciiAlnum c = true) : c ≠ '-' := by
  intro he
  subst he
  exact absurd h (by decide)

theorem lowerAlnum_of_alnum_notUpper (c : Char) (h : isAsciiAlnum c = true)
    (hn : ¬(65 ≤ c.toNat ∧ c.toNat ≤ 90)) : isAsciiLowerAlnum c = true := by
  simp only [isAsciiAlnum, Bool.or_eq_true] at h
  rcases h with h | h
  · exact h
  · exfalso
    simp only [Bool.and_eq_true, decide_eq_true_eq] at h
    omega

theorem collapseAux_good : ∀ (l : List Char) (b : Bool),
    (∀ c ∈ l, ¬(65 ≤ c.toNat ∧ c.toNat ≤ 90)) →
    ∀ c ∈ collapseAux b l, goodChar c = true := by
  intro l
  induction l with
  | nil =>
    intro b h c hc
    cases hc
  | cons d rest ih =>
    intro b h c hc
    have hrest : ∀ x ∈ rest, ¬(65 ≤ x.toNat ∧ x.toNat ≤ 90) :=
      fun x hx => h x (List.mem_cons_of_mem _ hx)
    simp only [collapseAux] at hc
    by_cases hd : isAsciiAlnum d = true
    · rw [if_pos hd] at hc
      rcases List.mem_cons.mp hc with hc | hc
      · subst hc
        have hnu := h c (List.mem_cons_self ..)
        simp only [goodChar, Bool.or_eq_true]
        exact Or.inl (lowerAlnum_of_alnum_notUpper c hd hnu)
      · exact ih false hrest c hc
    · rw [if_neg hd] at hc
      cases b with
      | true => exact ih true hrest c (by simpa using hc)
      | false =>
        rcases List.mem_cons.mp (by simpa using hc) with hc | hc
        · subst hc
          decide
        · exact ih true hrest c hc

theorem collapseAux_true_head : ∀ (l : List Char) (c : Char),
    (collapseAux true l).head? = some c → isAsciiAlnum c = true := by
  intro l
  induction l with
  | nil =>
    intro c hc
    cases hc
  | cons d rest ih =>
    intro c hc
    simp only [collapseAux] at hc
    by_cases hd : isAsciiAlnum d = true
    · rw [if_pos hd, List.head?_cons, Option.some.injEq] at hc
      exact hc ▸ hd
    · rw [if_neg hd] at hc
      exact ih c (by simpa using hc)

theorem collapseAux_noDD : ∀ (l : List Char) (b : Bool), NoDD (collapseAux b l) := by
  intro l
  induction l with
  | nil =>
    intro b
    exact List.chain'_nil
  | cons d rest ih =>
    intro b
    simp only [collapseAux]
    by_cases hd : isAsciiAlnum d = true
    · rw [if_pos hd]
      exact List.chain'_cons'.mpr
        ⟨fun y _ hb => alnum_ne_dash d hd hb.1, ih false⟩
    · rw [if_neg hd]
      cases b with
      | true =>
        rw [if_pos rfl]
        exact ih true
      | false =>
        rw [if_neg (by decide)]
        refine List.chain'_cons'.mpr ⟨?_, ih true⟩
        intro y hy hb
        exact alnum_ne_dash y (collapseAux_true_head rest y hy) hb.2

theorem collapseAux_fixed : ∀ l : List Char,
    (∀ c ∈ l, goodChar c = true) → NoDD l →
    collapseAux false l = l ∧ (l.head? ≠ some '-' → collapseAux true l = l) := by
  intro l
  induction l with
  | nil => exact fun _ _ => ⟨rfl, fun _ => rfl⟩
  | cons d rest ih =>
    intro hg hn
    have hgrest : ∀ c ∈ rest, goodChar c = true :=
      fun c hc => hg c (List.mem_cons_of_mem _ hc)
    have hnrest : NoDD rest := (List.chain'_cons'.mp hn).2
    have hd := hg d (List.mem_cons_self ..)
    by_cases hda : isAsciiLowerAlnum d = true
    · have hdal : isAsciiAlnum d = true := by
        simp [isAsciiAlnum, hda]
      have hrec := (ih hgrest hnrest).1
      constructor
      · simp only [collapseAux, if_pos hdal, hrec]
      · intro _
        simp only [collapseAux, if_pos hdal, hrec]
    · have hdd : d = '-' := by
        simp only [goodChar, Bool.or_eq_true, isDash, decide_eq_true_eq] at hd
        rcases hd with hd | hd
        · exact absurd hd hda
        · exact hd
      subst hdd
      have hhead : rest.head? ≠ some '-' := by
        intro hh
        rcases hr : rest.head? with - | y
        · rw [hr] at hh; cases hh
        · rw [hr, Option.some.injEq] at hh
          exact (List.chain'_cons'.mp hn).1 y hr ⟨rfl, hh⟩
      have hrec := (ih hgrest hnrest).2 hhead
      constructor
      · simp only [collapseAux, if_neg (by decide : ¬(isAsciiAlnum '-' = true)), hrec]
        rfl
      · intro hcontra
        exact absurd rfl hcontra

theorem head_dropWhile_not (p : Char → Bool) :
    ∀ (l : List Char) (c : Char), (l.dropWhile p).head? = some c → p c = false := by
  intro l
  induction l with
  | nil =>
    intro c h
    cases h
  | cons d rest ih =>
    intro c h
    rw [List.dropWhile_cons] at h
    by_cases hd : p d = true
    · rw [if_pos hd] at h
      exact ih c h
    · rw [if_neg hd, List.head?_cons, Option.some.injEq] at h
      subst h
      simpa using hd

theorem trimDashes_head (l : List Char) (c : Char)
    (h : (trimDashes l).head? = some c) : c ≠ '-' := by
  unfold trimDashes at h
  obtain ⟨t, ht⟩ := List.rdropWhile_prefix isDash (l.dropWhile isDash)
  have hc : (l.dropWhile isDash).head? = some c := by
    rw [← ht, List.head?_append, h]
    rfl
  have := head_dropWhile_not isDash l c hc
  simpa [isDash] using this

theorem trimDashes_last (l : List Char) (c : Char)
    (h : (trimDashes l).getLast? = some c) : c ≠ '-' := by
  unfold trimDashes at h
  have hne : (l.dropWhile isDash).rdropWhile isDash ≠ [] := by
    intro hnil
    rw [hnil] at h
    cases h
  have hlast := List.rdropWhile_last_not isDash (l.dropWhile isDash) hne
  rw [List.getLast?_eq_getLast _ hne, Option.some.injEq] at h
  subst h
  simpa [isDash] using hlast

theorem trimDashes_within (l : List Char) : trimDashes l <:+: l := by
  have h1 := List.rdropWhile_prefix isDash (l.dropWhile isDash)
  have h2 : l.dropWhile isDash <:+ l := List.dropWhile_suffix isDash
  exact h1.isInfix.trans h2.isInfix

theorem trimDashes_fixed (l : List Char) (hh : l.head? ≠ some '-')
    (hl : l.getLast? ≠ some '-') : trimDashes l = l := by
  unfold trimDashes
  have h1 : l.dropWhile isDash = l := by
    cases l with
    | nil => rfl
    | cons d rest =>
      have hd : d ≠ '-' := fun he => hh (by rw [he]; rfl)
      rw [List.dropWhile_cons, if_neg (by simp [isDash, hd])]
  rw [h1]
  rw [List.rdropWhile_eq_self_iff]
  intro hne
  have : l.getLast? = some (l.getLast hne) := List.getLast?_eq_getLast l hne
  intro hdash
  apply hl
  rw [this, Option.some.injEq]
  simpa [isDash] using hdash

theorem map_pyLower_good (l : List Char) (h : ∀ c ∈ l, goodChar c = true) :
    l.map pyLower = l := by
  conv_rhs => rw [← List.map_id l]
  exact List.map_congr_left fun c hc => goodChar_pyLower_fixed c (h c hc)

/-- Every `slugChars` output is in slug normal form. -/
theorem slugChars_normalized (l : List Char) :
    (∀ c ∈ slugChars l, goodChar c = true) ∧ NoDD (slugChars l) ∧
      (slugChars l).head? ≠ some '-' ∧ (slugChars l).getLast? ≠ some '-' := by
  have hnu : ∀ c ∈ l.map pyLower, ¬(65 ≤ c.toNat ∧ c.toNat ≤ 90) := by
    intro c hc
    obtain ⟨a, -, ha⟩ := List.mem_map.mp hc
    exact ha ▸ pyLower_not_upper a
  refine ⟨?_, ?_, ?_, ?_⟩
  · intro c hc
    exact collapseAux_good (l.map pyLower) false hnu c ((trimDashes_within _).subset hc)
  · exact List.Chain'.infix (collapseAux_noDD (l.map pyLower) false) (trimDashes_within _)
  · intro h
    exact trimDashes_head _ '-' h rfl
  · intro h
    exact trimDashes_last _ '-' h rfl

/-- `slugChars` is the identity on slug normal forms. -/
theorem slugChars_fixed (l : List Char)
    (hg : ∀ c ∈ l, goodChar c = true) (hn : NoDD l)
    (hh : l.head? ≠ some '-') (hl : l.getLast? ≠ some '-') : slugChars l = l := by
  unfold slugChars collapseNonAlnum
  rw [map_pyLower_good l hg, (collapseAux_fixed l hg hn).1, trimDashes_fixed l hh hl]

/-- C10: slug derivation is idempotent — `slug(slug(x)) = slug(x)` for every
string, including the `"subject"` placeholder case — and deterministic: equal
inputs yield equal slugs. -/
theorem slug_idempotent_deterministic :
    (∀ s : String, slugify (slugify s) = slugify s) ∧
      ∀ s t : String, s = t → slugify s = slugify t := by
  constructor
  · intro s
    by_cases he : (slugChars s.data).isEmpty = true
    · have h1 : slugify s = "subject" := by
        unfold slugify
        rw [if_pos he]
      rw [h1]
      rfl
    · obtain ⟨hg, hn, hh, hl⟩ := slugChars_normalized s.data
      have h1 : slugify s = ⟨slugChars s.data⟩ := by
        unfold slugify
        rw [if_neg he]
      rw [h1]
      have hfix : slugChars (String.mk (slugChars s.data)).data = slugChars s.data :=
        slugChars_fixed (slugChars s.data) hg hn hh hl
      unfold slugify
      rw [hfix, if_neg he]
  · intro s t h
    rw [h]

/-- C10 witness: idempotence and determinism at concrete inputs. -/
theorem slug_idempotent_deterministic_witness :
    slugify (slugify "A b!") = slugify "A b!" ∧ slugify "Biology" = slugify "Biology" :=
  ⟨slug_idempotent_deterministic.1 "A b!",
    slug_idempotent_deterministic.2 "Biology" "Biology" rfl⟩

end Graspy
